import Mathlib

/-!
Verification of the `auto-scale-ai` MCP protocol server
(`src/auto_scale_ai/server.py`) against its natural-language specification.

The server is shallowly embedded: Python dict/list/str/bool/None values are
the `Value` inductive, the mutable `MCPServer` object is a Lean structure
threaded explicitly through the handlers, and Python `raise ValueError`
becomes an `Except.error` carrying a typed failure.

Python attribute semantics matter here: the class body sets a class-level
attribute `ticket_id = 0`, while `__init__` assigns `self.ticket_id = 42`,
which creates an instance attribute.  Attribute reads consult the instance
dictionary first and fall back to the class attribute; attribute writes
always go to the instance dictionary.  This is modelled by an
`Option Int` instance slot plus a fixed class-level default.
-/

/-- A JSON-like Python value: strings, booleans, arbitrary-precision
integers, lists, insertion-ordered string-keyed dicts, and `None`. -/
inductive Value where
  | str : String → Value
  | bool : Bool → Value
  | int : Int → Value
  | arr : List Value → Value
  | obj : List (String × Value) → Value
  | null : Value

/-- A Python dict with string keys, insertion order preserved. -/
abbrev Dict := List (String × Value)

/-- Python `d.get(key)` on a dict with unique keys: the first binding of
`key`, if any. -/
def assocGet : Dict → String → Option Value
  | [], _ => none
  | (k, v) :: rest, key => if k = key then some v else assocGet rest key

/-- The typed failures the server can raise: `ValueError("Unknown tool: ...")`
carrying the looked-up tool name (which may be `None`),
`ValueError("Unknown method: ...")` carrying the method string, and the
`AttributeError` Python raises when `.get` is called on a non-dict. -/
inductive PyError where
  | unknownTool : Value → PyError
  | unknownMethod : String → PyError
  | attributeError : PyError

/-- The tool definition registered under `"generate_ticket"` in
`MCPServer.__init__`. -/
def generateTicketTool : Value :=
  Value.obj
    [ ("name", Value.str "generate_ticket"),
      ("description", Value.str "Generate a ticket for the customer"),
      ("inputSchema", Value.obj
        [ ("type", Value.str "object"),
          ("properties", Value.obj []),
          ("required", Value.arr []) ]) ]

/-- The server object: the `ticket_id` instance attribute slot (`none` when
never assigned on the instance) and the `tools` registry, a dict from tool
name to tool definition. -/
structure MCPServer where
  instTicketId : Option Int
  tools : Dict

/-- The class-level attribute `ticket_id = 0` in the body of `MCPServer`. -/
def MCPServer.classTicketId : Int := 0

/-- Python attribute read `self.ticket_id`: the instance attribute if set,
else the class-level default. -/
def MCPServer.getTicketId (s : MCPServer) : Int :=
  s.instTicketId.getD MCPServer.classTicketId

/-- Python attribute write `self.ticket_id = v`: always writes the instance
attribute. -/
def MCPServer.setTicketId (s : MCPServer) (v : Int) : MCPServer :=
  { s with instTicketId := some v }

/-- Constructor `MCPServer()`: runs `__init__`, which assigns `self.ticket_id = 42` and
installs the one-entry tool registry. -/
def MCPServer.new : MCPServer :=
  { instTicketId := some 42,
    tools := [("generate_ticket", generateTicketTool)] }

/-- Handler `handle_initialize`: ignores `params`, returns the fixed capability
descriptor. -/
def MCPServer.handle_init (_s : MCPServer) (_params : Value) : Value :=
  Value.obj
    [ ("protocolVersion", Value.str "2024-11-05"),
      ("capabilities", Value.obj
        [ ("tools", Value.obj [("listChanged", Value.bool true)]) ]),
      ("serverInfo", Value.obj
        [ ("name", Value.str "auto-scale-ai"),
          ("version", Value.str "1.0.0") ]) ]

/-- Handler `handle_tools_list`: `{"tools": list(self.tools.values())}`. -/
def MCPServer.handle_tools_list (s : MCPServer) (_params : Value) : Value :=
  Value.obj [("tools", Value.arr (s.tools.map Prod.snd))]

/-- The text of a generated ticket, `f"Ticket generated: ID: {id}"`. -/
def ticketText (id : Int) : String :=
  "Ticket generated: ID: " ++ toString id

/-- The result payload of a successful `generate_ticket` call. -/
def ticketResult (id : Int) : Value :=
  Value.obj
    [ ("content", Value.arr
        [ Value.obj
            [ ("type", Value.str "text"),
              ("text", Value.str (ticketText id)) ] ]) ]

/-- Handler `handle_tools_call`: reads `params.get("name")` (missing key gives
`None`), and on `"generate_ticket"` performs `self.ticket_id += 1` and
returns the ticket payload; any other name raises
`ValueError(f"Unknown tool: {tool_name}")`.  A non-dict `params` raises
`AttributeError` at `.get`.  The `bearer_token` argument is never used. -/
def MCPServer.handle_tools_call (s : MCPServer) (params : Value)
    (_bearer_token : Option String) : Except PyError Value × MCPServer :=
  match params with
  | Value.obj kvs =>
    match (assocGet kvs "name").getD Value.null with
    | Value.str n =>
      if n = "generate_ticket" then
        let s' := s.setTicketId (s.getTicketId + 1)
        (Except.ok (ticketResult s'.getTicketId), s')
      else
        (Except.error (PyError.unknownTool (Value.str n)), s)
    | tn => (Except.error (PyError.unknownTool tn), s)
  | _ => (Except.error PyError.attributeError, s)

/-- Handler `handle_request`: routes by exact string match on `method`, passing
`data.get("params", {})` to the handler; an unmatched method raises
`ValueError(f"Unknown method: {method}")`. -/
def MCPServer.handle_request (s : MCPServer) (method : String) (data : Dict)
    (bearer_token : Option String) : Except PyError Value × MCPServer :=
  let params := (assocGet data "params").getD (Value.obj [])
  if method = "initialize" then
    (Except.ok (s.handle_init params), s)
  else if method = "tools/list" then
    (Except.ok (s.handle_tools_list params), s)
  else if method = "tools/call" then
    s.handle_tools_call params bearer_token
  else
    (Except.error (PyError.unknownMethod method), s)

/-- The `params` dict of a well-formed `tools/call` request for
`generate_ticket`. -/
def genParams : Value := Value.obj [("name", Value.str "generate_ticket")]

/-- Runs `n` sequential `handle_tools_call` invocations with `genParams`,
collecting the per-call outcomes in order together with the final state. -/
def genRun (s : MCPServer) : Nat → List (Except PyError Value) × MCPServer
  | 0 => ([], s)
  | Nat.succ n =>
    let step := s.handle_tools_call genParams none
    let rest := genRun step.2 n
    (step.1 :: rest.1, rest.2)

/-- A server state reachable from a freshly constructed server by any
sequence of `handle_request` invocations. -/
inductive Reachable : MCPServer → Prop where
  | base : Reachable MCPServer.new
  | step : ∀ s method data bt, Reachable s →
      Reachable (MCPServer.handle_request s method data bt).2

/-! ## Shared helper lemmas -/

/-- A well-formed `generate_ticket` call always succeeds: it bumps the
instance counter and returns the payload with the new counter value. -/
theorem handle_tools_call_genParams (s : MCPServer) (bt : Option String) :
    MCPServer.handle_tools_call s genParams bt
      = (Except.ok (ticketResult (s.getTicketId + 1)),
         s.setTicketId (s.getTicketId + 1)) := rfl

/-- Lemma: `handle_tools_call` never touches the tool registry. -/
theorem handle_tools_call_preserves_tools (s : MCPServer) (pv : Value)
    (bt : Option String) :
    ((MCPServer.handle_tools_call s pv bt).2).tools = s.tools := by
  unfold MCPServer.handle_tools_call
  cases pv
  case obj kvs =>
    dsimp only
    split
    · split <;> rfl
    · rfl
  all_goals rfl

/-- Lemma: `handle_request` never touches the tool registry. -/
theorem handle_request_preserves_tools (s : MCPServer) (m : String) (data : Dict)
    (bt : Option String) :
    ((MCPServer.handle_request s m data bt).2).tools = s.tools := by
  unfold MCPServer.handle_request
  split
  · rfl
  · split
    · rfl
    · split
      · exact handle_tools_call_preserves_tools ..
      · rfl

/-- Every reachable state carries the original one-entry registry. -/
theorem reachable_tools_eq (s : MCPServer) (h : Reachable s) :
    s.tools = [("generate_ticket", generateTicketTool)] := by
  induction h with
  | base => rfl
  | step s m data bt _hr ih =>
    rw [handle_request_preserves_tools]
    exact ih

/-! ## Claims -/

/-- Claim C1: starting from any server state with counter value `C`, `n`
sequential `generate_ticket` calls all succeed, the `i`-th (1-indexed) call
returns a single text content block reading `Ticket generated: ID: <C+i>`,
and the final counter is `C + n`; the returned IDs are exactly
`C+1, ..., C+n`, strictly increasing with no gaps or repeats. -/
theorem C1_sequential_generate_ticket (s : MCPServer) (n : Nat) :
    (genRun s n).1
        = (List.range n).map
            (fun i : Nat => Except.ok (ticketResult (s.getTicketId + (i : Int) + 1)))
    ∧ (genRun s n).2.getTicketId = s.getTicketId + n := by
  induction n generalizing s with
  | zero => simp [genRun]
  | succ n ih =>
    obtain ⟨ih1, ih2⟩ := ih (s.setTicketId (s.getTicketId + 1))
    have hgen : genRun s (n + 1)
        = (Except.ok (ticketResult (s.getTicketId + 1))
             :: (genRun (s.setTicketId (s.getTicketId + 1)) n).1,
           (genRun (s.setTicketId (s.getTicketId + 1)) n).2) := rfl
    have hid : (s.setTicketId (s.getTicketId + 1)).getTicketId
        = s.getTicketId + 1 := rfl
    rw [hgen]
    constructor
    · rw [ih1, List.range_succ_eq_map, List.map_cons, List.map_map]
      refine congrArg₂ List.cons (by congr 1; congr 1; push_cast; ring) ?_
      refine List.map_congr_left (fun i _hi => ?_)
      rw [hid]
      simp only [Function.comp_apply]
      congr 1
      congr 1
      push_cast
      ring
    · rw [ih2, hid]
      push_cast
      ring

/-- Claim C2 counterexample: a freshly constructed server carries the
instance attribute `ticket_id = 42` (which shadows the class-level `0`), so
the very first `generate_ticket` call returns ticket ID 43 — whose text
differs from the ID-1 text the claim asserts. -/
theorem C2_first_ticket_counterexample :
    MCPServer.new.instTicketId = some 42
    ∧ (MCPServer.handle_tools_call MCPServer.new genParams none).1
        = Except.ok (ticketResult 43)
    ∧ ticketText 43 ≠ ticketText 1 :=
  ⟨rfl, rfl, by decide⟩

/-- Claim C2 (amended): on a freshly constructed server the ticket counter
effectively starts at 42 — the instance-level assignment in `__init__`
shadows the class-level default of 0, which is the dead one — so the first
successful `generate_ticket` invocation returns ticket ID 43, not 1. -/
theorem C2_first_ticket_is_43 :
    MCPServer.classTicketId = 0
    ∧ MCPServer.new.getTicketId = 42
    ∧ MCPServer.handle_tools_call MCPServer.new genParams none
        = (Except.ok (ticketResult 43), MCPServer.new.setTicketId 43) :=
  ⟨rfl, rfl, rfl⟩

/-- Claim C3: whenever the `name` field of the params dict is anything other
than the string `"generate_ticket"` — a different string, a non-string
value, or absent (read as `None`) — `handle_tools_call` fails with an
unknown-tool error carrying that looked-up name, leaves the state unchanged,
and does so for every registry contents (the registry is never consulted for
dispatch). -/
theorem C3_unknown_tool (s : MCPServer) (kvs : Dict) (bt : Option String)
    (h : (assocGet kvs "name").getD Value.null ≠ Value.str "generate_ticket") :
    MCPServer.handle_tools_call s (Value.obj kvs) bt
      = (Except.error (PyError.unknownTool ((assocGet kvs "name").getD Value.null)), s) := by
  unfold MCPServer.handle_tools_call
  dsimp only
  split
  case h_1 n heq =>
    rw [heq] at h ⊢
    have hn : n ≠ "generate_ticket" := fun he => h (by rw [he])
    simp [hn]
  case h_2 tn hne =>
    rfl

/-- Claim C3 witness: requesting the tool `"nonexistent"` on a fresh server
fails with an unknown-tool error carrying `"nonexistent"`. -/
theorem C3_unknown_tool_witness :
    MCPServer.handle_tools_call MCPServer.new
        (Value.obj [("name", Value.str "nonexistent")]) none
      = (Except.error (PyError.unknownTool
            ((assocGet [("name", Value.str "nonexistent")] "name").getD Value.null)),
         MCPServer.new) :=
  C3_unknown_tool MCPServer.new [("name", Value.str "nonexistent")] none
    (by intro hc; injection hc with hs; exact absurd hs (by decide))

/-- Claim C4: `handle_request` dispatches by exact string match —
`"initialize"` to the capability handler, `"tools/list"` to the tool-listing
handler, `"tools/call"` to the tool-call handler — and every other method
string fails with an unknown-method error carrying that string; a request
datum without a `"params"` key hands the handler an empty mapping. -/
theorem C4_method_dispatch (s : MCPServer) (data : Dict) (bt : Option String)
    (m : String)
    (hm : m ≠ "initialize" ∧ m ≠ "tools/list" ∧ m ≠ "tools/call") :
    MCPServer.handle_request s "initialize" data bt
        = (Except.ok (s.handle_init ((assocGet data "params").getD (Value.obj []))), s)
    ∧ MCPServer.handle_request s "tools/list" data bt
        = (Except.ok (s.handle_tools_list ((assocGet data "params").getD (Value.obj []))), s)
    ∧ MCPServer.handle_request s "tools/call" data bt
        = s.handle_tools_call ((assocGet data "params").getD (Value.obj [])) bt
    ∧ MCPServer.handle_request s m data bt
        = (Except.error (PyError.unknownMethod m), s)
    ∧ (assocGet data "params" = none →
        (assocGet data "params").getD (Value.obj []) = Value.obj []) := by
  obtain ⟨h1, h2, h3⟩ := hm
  refine ⟨rfl, rfl, rfl, ?_, fun hp => by rw [hp]; rfl⟩
  unfold MCPServer.handle_request
  simp [h1, h2, h3]

/-- Claim C4 witness: the method `"bogus_method"` fails with an
unknown-method error, and a datum without `"params"` yields the empty
mapping. -/
theorem C4_method_dispatch_witness :
    MCPServer.handle_request MCPServer.new "initialize" [] none
        = (Except.ok (MCPServer.new.handle_init
            ((assocGet [] "params").getD (Value.obj []))), MCPServer.new)
    ∧ MCPServer.handle_request MCPServer.new "tools/list" [] none
        = (Except.ok (MCPServer.new.handle_tools_list
            ((assocGet [] "params").getD (Value.obj []))), MCPServer.new)
    ∧ MCPServer.handle_request MCPServer.new "tools/call" [] none
        = MCPServer.new.handle_tools_call
            ((assocGet [] "params").getD (Value.obj [])) none
    ∧ MCPServer.handle_request MCPServer.new "bogus_method" [] none
        = (Except.error (PyError.unknownMethod "bogus_method"), MCPServer.new)
    ∧ (assocGet [] "params" = none →
        (assocGet [] "params").getD (Value.obj []) = Value.obj []) :=
  C4_method_dispatch MCPServer.new [] none "bogus_method"
    ⟨by decide, by decide, by decide⟩

/-- Claim C5: `initialize` and `tools/list` are pure — their results ignore
the params argument and depend on nothing but the (immutable) tool registry,
routing them through `handle_request` returns the server state unchanged,
and the only stateful handler never alters the registry, so repeated calls
in any order always return the same values. -/
theorem C5_pure_handlers (s t : MCPServer) (p q : Value) (data : Dict)
    (bt : Option String) (pv : Value)
    (h : s.tools = t.tools) :
    MCPServer.handle_init s p = MCPServer.handle_init t q
    ∧ MCPServer.handle_tools_list s p = MCPServer.handle_tools_list t q
    ∧ MCPServer.handle_request s "initialize" data bt
        = (Except.ok (s.handle_init ((assocGet data "params").getD (Value.obj []))), s)
    ∧ MCPServer.handle_request s "tools/list" data bt
        = (Except.ok (s.handle_tools_list ((assocGet data "params").getD (Value.obj []))), s)
    ∧ ((MCPServer.handle_tools_call s pv bt).2).tools = s.tools := by
  refine ⟨rfl, ?_, rfl, rfl, handle_tools_call_preserves_tools ..⟩
  unfold MCPServer.handle_tools_list
  rw [h]

/-- Claim C5 witness: instantiated on a fresh server and a counter-bumped
copy of it, with concrete params. -/
theorem C5_pure_handlers_witness :
    MCPServer.handle_init MCPServer.new Value.null
        = MCPServer.handle_init (MCPServer.new.setTicketId 43) (Value.obj [])
    ∧ MCPServer.handle_tools_list MCPServer.new Value.null
        = MCPServer.handle_tools_list (MCPServer.new.setTicketId 43) (Value.obj [])
    ∧ MCPServer.handle_request MCPServer.new "initialize" [] none
        = (Except.ok (MCPServer.new.handle_init
            ((assocGet [] "params").getD (Value.obj []))), MCPServer.new)
    ∧ MCPServer.handle_request MCPServer.new "tools/list" [] none
        = (Except.ok (MCPServer.new.handle_tools_list
            ((assocGet [] "params").getD (Value.obj []))), MCPServer.new)
    ∧ ((MCPServer.handle_tools_call MCPServer.new genParams none).2).tools
        = MCPServer.new.tools :=
  C5_pure_handlers MCPServer.new (MCPServer.new.setTicketId 43) Value.null
    (Value.obj []) [] none genParams rfl

/-- Claim C6: for every server state and every params value (ignored
entirely), the capability handler returns exactly the fixed descriptor with
protocol version `2024-11-05`, capabilities `{tools: {listChanged: true}}`,
and server identity `auto-scale-ai` version `1.0.0`. -/
theorem C6_init_fixed_descriptor (s : MCPServer) (p : Value) :
    MCPServer.handle_init s p
      = Value.obj
          [ ("protocolVersion", Value.str "2024-11-05"),
            ("capabilities", Value.obj
              [ ("tools", Value.obj [("listChanged", Value.bool true)]) ]),
            ("serverInfo", Value.obj
              [ ("name", Value.str "auto-scale-ai"),
                ("version", Value.str "1.0.0") ]) ] := rfl

/-- Claim C7: on every reachable server state and for every params value,
`handle_tools_list` returns a `tools` sequence holding exactly one tool,
`generate_ticket`, with its registered description and the empty-object
input schema, in registry insertion order. -/
theorem C7_tools_list (s : MCPServer) (p : Value) (h : Reachable s) :
    MCPServer.handle_tools_list s p
      = Value.obj
          [ ("tools", Value.arr
              [ Value.obj
                  [ ("name", Value.str "generate_ticket"),
                    ("description", Value.str "Generate a ticket for the customer"),
                    ("inputSchema", Value.obj
                      [ ("type", Value.str "object"),
                        ("properties", Value.obj []),
                        ("required", Value.arr []) ]) ] ]) ] := by
  unfold MCPServer.handle_tools_list
  rw [reachable_tools_eq s h]
  rfl

/-- Claim C7 witness: the freshly constructed server lists exactly the one
`generate_ticket` tool. -/
theorem C7_tools_list_witness :
    MCPServer.handle_tools_list MCPServer.new Value.null
      = Value.obj
          [ ("tools", Value.arr
              [ Value.obj
                  [ ("name", Value.str "generate_ticket"),
                    ("description", Value.str "Generate a ticket for the customer"),
                    ("inputSchema", Value.obj
                      [ ("type", Value.str "object"),
                        ("properties", Value.obj []),
                        ("required", Value.arr []) ]) ] ]) ] :=
  C7_tools_list MCPServer.new Value.null Reachable.base

/-- Claim C8: the bearer token never influences behaviour — for every
method, request datum, and server state, two `handle_request` runs that
differ only in the bearer token produce the same outcome (result or error)
and the same final server state. -/
theorem C8_bearer_token_no_influence (s : MCPServer) (m : String) (data : Dict)
    (bt bt' : Option String) :
    MCPServer.handle_request s m data bt
      = MCPServer.handle_request s m data bt' := rfl

/-- Claim C10: when the params dict lacks a `"name"` key, the name is read
as `None`, falls into the unknown-tool branch, and the call fails with an
unknown-tool error carrying `None`, leaving the server state — in
particular the ticket counter — unchanged. -/
theorem C10_missing_name (s : MCPServer) (kvs : Dict) (bt : Option String)
    (h : assocGet kvs "name" = none) :
    MCPServer.handle_tools_call s (Value.obj kvs) bt
      = (Except.error (PyError.unknownTool Value.null), s) := by
  unfold MCPServer.handle_tools_call
  dsimp only
  rw [h]
  rfl

/-- Claim C10 witness: calling with params `{"arguments": {}}` (no name) on
a fresh server fails with an unknown-tool error carrying `None` and keeps
the state intact. -/
theorem C10_missing_name_witness :
    MCPServer.handle_tools_call MCPServer.new
        (Value.obj [("arguments", Value.obj [])]) none
      = (Except.error (PyError.unknownTool Value.null), MCPServer.new) :=
  C10_missing_name MCPServer.new [("arguments", Value.obj [])] none rfl
